import Mathlib

/-!
Shallow embedding of `src/drawer/main.py` (the `drawer` plotting script).

The script parses CLI options, loads a CSV into a pandas DataFrame, filters
the rows flagged `output == 1`, and issues matplotlib calls building a
three-panel figure (value/1000, saliency, score) with an anomaly overlay on
each panel, optional threshold line on the score panel, shared time-axis
formatting, a `savefig`, and an optional `show`.

Modelling conventions:
* floats are modelled as `ℚ` (the script does only division by 1000 and
  equality against the literal 1);
* a pandas DataFrame is a `Frame`: the CSV header (`cols`) plus typed rows;
  column access `df[c]` checks membership of `c` in the header and raises
  `KeyError` otherwise, embedded as `Except PdError`;
* `pd.to_datetime` is a third-party parser, kept as a parameter
  `parse : String → T` of the pipeline (the script never inspects the
  parsed timestamps, it only forwards them to matplotlib);
* the matplotlib calls are embedded as the construction of a `Figure`
  value recording exactly the arguments the script passes; `plt.savefig`
  and `plt.show` become an `Effect` trace in program order.
-/

namespace Drawer

/-- The CLI options of the script (`argparse` block of `main`, source lines
12-36): positional `path`, `--name` (default `"value"`), `--threshold`
(optional float), `--output` (default `"output.png"`), `--show`
(default false). -/
structure Args where
  path : String
  name : String := "value"
  threshold : Option ℚ := none
  output : String := "output.png"
  showFlag : Bool := false
deriving DecidableEq

/-- One row of the loaded CSV, with the five columns the script reads.
`Time` is kept as its raw string (it is handed to `pd.to_datetime`);
`output` is the integer anomaly flag. -/
structure Row where
  time : String
  value : ℚ
  saliency : ℚ
  score : ℚ
  output : Int
deriving DecidableEq

/-- A loaded pandas DataFrame: the CSV header together with the typed rows.
Columns not listed in `cols` are absent from the CSV; accessing them raises
`KeyError` (see `Frame.get`). -/
structure Frame where
  cols : List String
  rows : List Row
deriving DecidableEq

/-- Errors propagated from the underlying libraries: a pandas `KeyError`
for a missing column, or an I/O failure opening the source. -/
inductive PdError where
  | keyError (col : String)
  | ioError (path : String)
deriving DecidableEq

/-- Column access `df[c]`: pandas raises `KeyError c` when `c` is not in the
header, and otherwise yields the column's values (here extracted from the
typed rows by the projection `f`). -/
def Frame.get {α : Type} (df : Frame) (c : String) (f : Row → α) :
    Except PdError (List α) :=
  if c ∈ df.cols then .ok (df.rows.map f) else .error (.keyError c)

/-- One matplotlib `ax.plot(xs, ys, ...)` call: the keyword arguments the
script passes are recorded when present (`none` = matplotlib default). -/
structure PlotCall (T : Type) where
  xs : List T
  ys : List ℚ
  marker : Option String := none
  linestyle : Option String := none
  color : Option String := none
deriving DecidableEq

/-- One `ax.axhline(y=..., color=..., linestyle=...)` call. -/
structure HLine where
  y : ℚ
  color : String
  linestyle : String
deriving DecidableEq

/-- One subplot (`matplotlib.axes.Axes`): its `add_subplot` position,
title, the `plot` calls issued on it, its horizontal lines, and the x-axis
date formatting applied by the final loop (`none` until the loop runs). -/
structure Axes (T : Type) where
  pos : Nat × Nat × Nat
  title : String := ""
  plots : List (PlotCall T) := []
  hlines : List HLine := []
  majorLocatorByHour : Option (List Nat) := none
  minorLocatorInterval : Option Nat := none
  majorFormatter : Option String := none
deriving DecidableEq

/-- The figure built by the script: its `figsize`, its subplots in creation
order, and whether `fig.autofmt_xdate()` was called. -/
structure Figure (T : Type) where
  figsize : List ℚ
  axs : List (Axes T)
  autofmtXdate : Bool := false
deriving DecidableEq

/-- Externally visible actions after the figure is built: `plt.savefig(path)`
writes the figure to `path`; `display` is `plt.show()`. -/
inductive Effect (T : Type) where
  | save (path : String) (fig : Figure T)
  | display (fig : Figure T)
deriving DecidableEq

/-- Result of a successful run: the constructed figure and the I/O effects
in program order. -/
structure RunOutput (T : Type) where
  figure : Figure T
  effects : List (Effect T)
deriving DecidableEq

/-- The x-axis formatting loop body (source lines 88-93): major ticks at
hours 0, 6, 12, 18 (`mdates.HourLocator([0, 6, 12, 18])`), minor ticks
every hour (`mdates.HourLocator(interval=1)`), and major labels formatted
`"%Y-%m-%d %H:%M"`. -/
def applyDateFormat {T : Type} (ax : Axes T) : Axes T :=
  { ax with
    majorLocatorByHour := some [0, 6, 12, 18]
    minorLocatorInterval := some 1
    majorFormatter := some "%Y-%m-%d %H:%M" }

/-- The body of `main` after argument parsing, acting on the loaded
DataFrame (source lines 44-97). `parse` stands for `pd.to_datetime`
applied elementwise. -/
def run (T : Type) (parse : String → T) (args : Args) (data : Frame) :
    Except PdError (RunOutput T) := do
  let threshold := args.threshold
  -- anomaly_points = data[data["output"] == 1]  (boolean-mask row selection)
  let mask ← data.get "output" (fun r => r.output == 1)
  let anomaly_points : Frame :=
    ⟨data.cols, ((data.rows.zip mask).filter (fun p => p.2)).map (fun p => p.1)⟩
  -- t_anomalies = pd.to_datetime(anomaly_points["Time"])
  let timesA ← anomaly_points.get "Time" Row.time
  let t_anomalies := timesA.map parse
  -- fig = plt.figure(figsize=[12.8, 9.6]); t = pd.to_datetime(data["Time"])
  let timesF ← data.get "Time" Row.time
  let t := timesF.map parse
  -- panel 1: title = args.name, value / 1000, red circular anomaly markers
  let values ← data.get "value" Row.value
  let valuesA ← anomaly_points.get "value" Row.value
  let ax1 : Axes T :=
    { pos := (3, 1, 1)
      title := args.name
      plots := [{ xs := t, ys := values.map (fun v => v / 1000) },
                { xs := t_anomalies, ys := valuesA.map (fun v => v / 1000),
                  marker := some "o", linestyle := some "None",
                  color := some "red" }] }
  -- panel 2: fixed title "Saliency Map", saliency unscaled
  let sals ← data.get "saliency" Row.saliency
  let salsA ← anomaly_points.get "saliency" Row.saliency
  let ax2 : Axes T :=
    { pos := (3, 1, 2)
      title := "Saliency Map"
      plots := [{ xs := t, ys := sals },
                { xs := t_anomalies, ys := salsA,
                  marker := some "o", linestyle := some "None",
                  color := some "red" }] }
  -- panel 3: fixed title "Score", score unscaled, threshold line if truthy
  let scores ← data.get "score" Row.score
  let scoresA ← anomaly_points.get "score" Row.score
  let ax3 : Axes T :=
    { pos := (3, 1, 3)
      title := "Score"
      plots := [{ xs := t, ys := scores },
                { xs := t_anomalies, ys := scoresA,
                  marker := some "o", linestyle := some "None",
                  color := some "red" }]
      -- `if threshold:` — Python truthiness: None and 0.0 are falsy
      hlines := match threshold with
        | some th => if th ≠ 0 then [⟨th, "red", "--"⟩] else []
        | none => [] }
  -- for ax in axs: date formatting; fig.autofmt_xdate()
  let fig : Figure T :=
    { figsize := [128 / 10, 96 / 10]
      axs := [ax1, ax2, ax3].map applyDateFormat
      autofmtXdate := true }
  -- plt.savefig(args.output); if args.show: plt.show()
  pure { figure := fig
         effects := Effect.save args.output fig ::
           (if args.showFlag then [Effect.display fig] else []) }

/-- Source-channel resolution (source lines 38-42): the literal path `"-"`
selects the standard input stream; any other path is opened through the
filesystem (`fs`, returning `none` when the file cannot be opened). -/
def readSrc (path : String) (stdinData : String) (fs : String → Option String) :
    Option String :=
  if path = "-" then some stdinData else fs path

/-- The whole run from a source channel: resolve the source, parse the CSV
bytes with the library parser `read_csv`, then run the pipeline. -/
def runFromSource (T : Type) (parse : String → T)
    (read_csv : String → Except PdError Frame)
    (stdinData : String) (fs : String → Option String) (args : Args) :
    Except PdError (RunOutput T) :=
  match readSrc args.path stdinData fs with
  | none => .error (.ioError args.path)
  | some content => (read_csv content).bind (run T parse args)

/-- The image files written by a run: the `save` effects of a successful
run; a failed run aborts before `plt.savefig` and writes nothing. -/
def writtenImages {T : Type} (r : Except PdError (RunOutput T)) :
    List (String × Figure T) :=
  match r with
  | .error _ => []
  | .ok o => o.effects.filterMap (fun e =>
      match e with
      | .save p f => some (p, f)
      | .display _ => none)

/-- All five required columns are present in the CSV header. -/
def hasCols (df : Frame) : Prop :=
  "output" ∈ df.cols ∧ "Time" ∈ df.cols ∧ "value" ∈ df.cols ∧
    "saliency" ∈ df.cols ∧ "score" ∈ df.cols

instance (df : Frame) : Decidable (hasCols df) := by
  unfold hasCols; infer_instance

/-- The Anomaly Subset: the rows whose `output` flag equals 1, with the
header unchanged (the derived view `data[data["output"] == 1]`). -/
def anomalyPoints (df : Frame) : Frame :=
  ⟨df.cols, df.rows.filter (fun r => r.output == 1)⟩

/-- The parsed time axis of a table (`pd.to_datetime(df["Time"])`). -/
def fullTimes (T : Type) (parse : String → T) (df : Frame) : List T :=
  df.rows.map (fun r => parse r.time)

/-- Restriction of a per-row list `t` (aligned with `df.rows`) to the rows
flagged `output == 1`; this is the spec's "restriction of the full-table
parsed timestamps to the rows with output == 1". -/
def restrictToAnomalies (T : Type) (df : Frame) (t : List T) : List T :=
  ((df.rows.zip t).filter (fun p => p.1.output == 1)).map (fun p => p.2)

deriving instance DecidableEq for Except

/-- The figure a successful run constructs, in closed form: three stacked
panels over the parsed time axis, overlays drawn from the Anomaly Subset,
threshold line on the score panel when truthy, date formatting and
`autofmt_xdate` applied. -/
def figureSpec (T : Type) (parse : String → T) (args : Args) (data : Frame) :
    Figure T :=
  let an := anomalyPoints data
  let t := fullTimes T parse data
  let tA := fullTimes T parse an
  { figsize := [128 / 10, 96 / 10]
    axs := [
      { pos := (3, 1, 1)
        title := args.name
        plots := [{ xs := t, ys := data.rows.map (fun r => r.value / 1000) },
                  { xs := tA, ys := an.rows.map (fun r => r.value / 1000),
                    marker := some "o", linestyle := some "None",
                    color := some "red" }]
        hlines := []
        majorLocatorByHour := some [0, 6, 12, 18]
        minorLocatorInterval := some 1
        majorFormatter := some "%Y-%m-%d %H:%M" },
      { pos := (3, 1, 2)
        title := "Saliency Map"
        plots := [{ xs := t, ys := data.rows.map Row.saliency },
                  { xs := tA, ys := an.rows.map Row.saliency,
                    marker := some "o", linestyle := some "None",
                    color := some "red" }]
        hlines := []
        majorLocatorByHour := some [0, 6, 12, 18]
        minorLocatorInterval := some 1
        majorFormatter := some "%Y-%m-%d %H:%M" },
      { pos := (3, 1, 3)
        title := "Score"
        plots := [{ xs := t, ys := data.rows.map Row.score },
                  { xs := tA, ys := an.rows.map Row.score,
                    marker := some "o", linestyle := some "None",
                    color := some "red" }]
        hlines := match args.threshold with
          | some th => if th ≠ 0 then [⟨th, "red", "--"⟩] else []
          | none => []
        majorLocatorByHour := some [0, 6, 12, 18]
        minorLocatorInterval := some 1
        majorFormatter := some "%Y-%m-%d %H:%M" }]
    autofmtXdate := true }

/-- The output of a successful run in closed form: the figure of
`figureSpec`, saved to `args.output`, then displayed iff `args.showFlag`. -/
def runSpec (T : Type) (parse : String → T) (args : Args) (data : Frame) :
    RunOutput T :=
  { figure := figureSpec T parse args data
    effects := Effect.save args.output (figureSpec T parse args data) ::
      (if args.showFlag then [Effect.display (figureSpec T parse args data)]
       else []) }

lemma exBind_ok {ε α β : Type} (a : α) (f : α → Except ε β) :
    (Except.ok a : Except ε α) >>= f = f a := rfl

lemma exBind_err {ε α β : Type} (e : ε) (f : α → Except ε β) :
    (Except.error e : Except ε α) >>= f = Except.error e := rfl

lemma exPure {ε α : Type} (a : α) : (pure a : Except ε α) = Except.ok a := rfl

lemma exMap_ok {ε α β : Type} (f : α → β) (a : α) :
    Except.map f (Except.ok a : Except ε α) = Except.ok (f a) := rfl

lemma Frame.get_ok {α : Type} (df : Frame) (c : String) (f : Row → α)
    (h : c ∈ df.cols) : df.get c f = .ok (df.rows.map f) := by
  simp [Frame.get, h]

lemma Frame.get_err {α : Type} (df : Frame) (c : String) (f : Row → α)
    (h : c ∉ df.cols) : df.get c f = .error (.keyError c) := by
  simp [Frame.get, h]

lemma zip_map_filter_fst {α : Type} (l : List α) (f : α → Bool) :
    ((l.zip (l.map f)).filter (fun p => p.2)).map (fun p => p.1) = l.filter f := by
  induction l with
  | nil => rfl
  | cons a l ih =>
    rw [List.map_cons, List.zip_cons_cons, List.filter_cons, List.filter_cons]
    cases hf : f a
    · simpa [hf] using ih
    · simpa [hf] using ih

lemma zip_map_filter_snd {α β : Type} (l : List α) (g : α → β) (q : α → Bool) :
    ((l.zip (l.map g)).filter (fun p => q p.1)).map (fun p => p.2) =
      (l.filter q).map g := by
  induction l with
  | nil => rfl
  | cons a l ih =>
    rw [List.map_cons, List.zip_cons_cons, List.filter_cons, List.filter_cons]
    cases hq : q a
    · simpa [hq] using ih
    · simpa [hq] using ih

/-- When all required columns are present, the run succeeds and produces
exactly the closed-form output `runSpec`. -/
lemma run_eq_ok (T : Type) (parse : String → T) (args : Args) (data : Frame)
    (h : hasCols data) :
    run T parse args data = .ok (runSpec T parse args data) := by
  obtain ⟨h1, h2, h3, h4, h5⟩ := h
  simp only [run, Frame.get_ok, h1, h2, h3, h4, h5, exBind_ok, exPure,
    zip_map_filter_fst]
  simp only [runSpec, figureSpec, anomalyPoints, fullTimes, applyDateFormat,
    List.map_map, List.map_cons, List.map_nil, Function.comp]
  rfl

/-- The `path` option is never read after source resolution, so the run on
a loaded table does not depend on it. -/
lemma run_path_irrel (T : Type) (parse : String → T) (p : String)
    (args : Args) (data : Frame) :
    run T parse { args with path := p } data = run T parse args data := by
  cases args; rfl

/-- Sample row, not anomalous (the spec's concrete scenario, first row). -/
def sampleRow0 : Row := ⟨"2024-01-01T00:00:00", 1000, 1 / 10, 2 / 10, 0⟩

/-- Sample row, anomalous (the spec's concrete scenario, second row). -/
def sampleRow1 : Row := ⟨"2024-01-01T01:00:00", 2000, 9 / 10, 95 / 100, 1⟩

/-- Sample table with all five columns, one normal and one anomalous row. -/
def sampleFrame : Frame :=
  ⟨["Time", "value", "saliency", "score", "output"], [sampleRow0, sampleRow1]⟩

/-- Sample CLI configuration with `threshold = 0.9`. -/
def sampleArgs : Args := { path := "data.csv", threshold := some (9 / 10) }

/-- Sample table whose CSV lacks the required `score` column. -/
def noScoreFrame : Frame :=
  ⟨["Time", "value", "saliency", "output"], [sampleRow0, sampleRow1]⟩

/-- Sample table in which no row is anomalous. -/
def calmFrame : Frame :=
  ⟨["Time", "value", "saliency", "score", "output"], [sampleRow0]⟩

/-- C1 fails as stated: with `threshold = 0.0` supplied, the score panel
contains no horizontal line at all (so not exactly one at y = 0), because
the source guards the `axhline` call by Python truthiness (`if threshold:`),
which is false at 0.0. -/
theorem C1_counterexample :
    ({ path := "data.csv", threshold := some 0 } : Args).threshold = some 0 ∧
    (run String id { path := "data.csv", threshold := some 0 } sampleFrame).map
        (fun o => o.figure.axs.map Axes.hlines) = .ok [[], [], []] :=
  ⟨rfl, rfl⟩

/-- C1 (amended): with `threshold` unset the score panel contains no
horizontal reference line; with `threshold = T` supplied and T ≠ 0 it
contains exactly one red dashed horizontal line at y = T; with
`threshold = 0` supplied it contains none (Python truthiness of the guard);
panels 1 and 2 never carry horizontal lines. -/
theorem C1_threshold_line (T : Type) (parse : String → T) (args : Args)
    (data : Frame) (h : hasCols data) :
    (run T parse args data).map (fun o => o.figure.axs.map Axes.hlines) =
      .ok [[], [],
        match args.threshold with
        | some th => if th ≠ 0 then [⟨th, "red", "--"⟩] else []
        | none => []] := by
  rw [run_eq_ok T parse args data h]; rfl

/-- C1 witness: on the sample data with `threshold = 0.9` the panels carry
exactly the horizontal lines `[[], [], [0.9 red dashed]]`. -/
theorem C1_threshold_line_witness :
    hasCols sampleFrame ∧
    (run String id sampleArgs sampleFrame).map
        (fun o => o.figure.axs.map Axes.hlines) =
      .ok [[], [], [⟨9 / 10, "red", "--"⟩]] := by
  refine ⟨by decide, ?_⟩
  rw [C1_threshold_line String id sampleArgs sampleFrame (by decide)]
  norm_num [sampleArgs]

/-- C2: the Anomaly Subset consists of exactly the rows with `output = 1`:
its size is the count of such rows, each of its rows is a row of the full
table (hence matches it at its `Time`) flagged 1, every flagged row is in
it, rows with any other `output` value (not only 0) are excluded, and such
values are not rejected — the run still succeeds whenever the five columns
are present. -/
theorem C2_anomaly_subset (data : Frame) :
    (anomalyPoints data).rows.length =
      data.rows.countP (fun r => r.output == 1) ∧
    (∀ r ∈ (anomalyPoints data).rows, r ∈ data.rows ∧ r.output = 1) ∧
    (∀ r ∈ data.rows, r.output = 1 → r ∈ (anomalyPoints data).rows) ∧
    (∀ r ∈ data.rows, r.output ≠ 1 → r ∉ (anomalyPoints data).rows) ∧
    (∀ (T : Type) (parse : String → T) (args : Args), hasCols data →
      (run T parse args data).isOk) := by
  refine ⟨(List.countP_eq_length_filter _ _).symm, ?_, ?_, ?_, ?_⟩
  · intro r hr
    rw [anomalyPoints] at hr
    simp only [List.mem_filter, beq_iff_eq] at hr
    exact hr
  · intro r hr h1
    rw [anomalyPoints]
    simp only [List.mem_filter, beq_iff_eq]
    exact ⟨hr, h1⟩
  · intro r _ h1 hmem
    rw [anomalyPoints] at hmem
    simp only [List.mem_filter, beq_iff_eq] at hmem
    exact h1 hmem.2
  · intro T parse args h
    rw [run_eq_ok T parse args data h]
    rfl

/-- C2 witness: on the sample table the Anomaly Subset has exactly the one
row flagged 1, excludes the row flagged 0, and the run succeeds. -/
theorem C2_anomaly_subset_witness :
    (anomalyPoints sampleFrame).rows.length = 1 ∧
    sampleRow1 ∈ (anomalyPoints sampleFrame).rows ∧
    sampleRow0 ∉ (anomalyPoints sampleFrame).rows ∧
    (run String id sampleArgs sampleFrame).isOk := by
  have h := C2_anomaly_subset sampleFrame
  exact ⟨h.1.trans (by decide),
    h.2.2.1 sampleRow1 (by simp [sampleFrame]) (by simp [sampleRow1]),
    h.2.2.2.1 sampleRow0 (by simp [sampleFrame]) (by simp [sampleRow0]),
    h.2.2.2.2 String id sampleArgs (by decide)⟩

/-- C3: at every timestamp, panel 1's line and anomaly overlay plot the
`value` column divided by 1000, while panels 2 and 3 plot `saliency` and
`score` unscaled (their overlays included). -/
theorem C3_panel_scaling (T : Type) (parse : String → T) (args : Args)
    (data : Frame) (h : hasCols data) :
    (run T parse args data).map
        (fun o => o.figure.axs.map (fun ax => ax.plots.map PlotCall.ys)) =
      .ok [[data.rows.map (fun r => r.value / 1000),
            (anomalyPoints data).rows.map (fun r => r.value / 1000)],
           [data.rows.map Row.saliency,
            (anomalyPoints data).rows.map Row.saliency],
           [data.rows.map Row.score,
            (anomalyPoints data).rows.map Row.score]] := by
  rw [run_eq_ok T parse args data h]; rfl

/-- C3 witness: on the sample table (values 1000 and 2000) panel 1 plots
1 and 2 (overlay 2), panel 2 plots 0.1 and 0.9 unscaled, panel 3 plots
0.2 and 0.95 unscaled. -/
theorem C3_panel_scaling_witness :
    hasCols sampleFrame ∧
    (run String id sampleArgs sampleFrame).map
        (fun o => o.figure.axs.map (fun ax => ax.plots.map PlotCall.ys)) =
      .ok [[[1, 2], [2]],
           [[1 / 10, 9 / 10], [9 / 10]],
           [[2 / 10, 95 / 100], [95 / 100]]] := by
  refine ⟨by decide, ?_⟩
  rw [C3_panel_scaling String id sampleArgs sampleFrame (by decide)]
  norm_num [sampleFrame, sampleRow0, sampleRow1, anomalyPoints]

/-- C4: when the `score` column is absent (the other four present), the
run fails with the pandas `KeyError "score"` — raised lazily at the first
access of the column, all earlier column accesses having succeeded — the
error propagates unhandled (nonzero exit status), and no image file is
written. -/
theorem C4_missing_score (T : Type) (parse : String → T) (args : Args)
    (data : Frame) (h1 : "output" ∈ data.cols) (h2 : "Time" ∈ data.cols)
    (h3 : "value" ∈ data.cols) (h4 : "saliency" ∈ data.cols)
    (h5 : "score" ∉ data.cols) :
    run T parse args data = .error (.keyError "score") ∧
    writtenImages (run T parse args data) = [] := by
  have hrun : run T parse args data = .error (.keyError "score") := by
    simp only [run, Frame.get_ok, Frame.get_err, h1, h2, h3, h4, h5,
      exBind_ok, exBind_err, exPure, not_false_iff]
  exact ⟨hrun, by rw [hrun]; rfl⟩

/-- C4 witness: on the sample table stripped of its `score` column the run
errors with `KeyError "score"` and writes no image. -/
theorem C4_missing_score_witness :
    run String id sampleArgs noScoreFrame = .error (.keyError "score") ∧
    writtenImages (run String id sampleArgs noScoreFrame) = [] :=
  C4_missing_score String id sampleArgs noScoreFrame (by decide) (by decide)
    (by decide) (by decide) (by decide)

/-- C5: with identical configuration apart from the source channel, a CSV
delivered on standard input (`path = "-"`) and the same CSV bytes read from
a named file produce identical run results — in particular identical
plotted data points in the resulting figures. -/
theorem C5_source_channel (T : Type) (parse : String → T)
    (read_csv : String → Except PdError Frame) (content sd : String)
    (fs fs2 : String → Option String) (args : Args)
    (hp : args.path ≠ "-") (hfs : fs args.path = some content) :
    runFromSource T parse read_csv content fs2 { args with path := "-" } =
      runFromSource T parse read_csv sd fs args := by
  obtain ⟨p, n, th, o, s⟩ := args
  have hrun : run T parse ⟨"-", n, th, o, s⟩ = run T parse ⟨p, n, th, o, s⟩ :=
    funext fun d => run_path_irrel T parse "-" ⟨p, n, th, o, s⟩ d
  simp only [runFromSource, readSrc] at hp hfs ⊢
  rw [if_neg hp, hfs, hrun]
  simp

/-- Sample CSV bytes for the source-channel witness. -/
def sampleCSV : String :=
  "Time,value,saliency,score,output\x0a2024-01-01T00:00:00,1000,0.1,0.2,0"

/-- Sample filesystem holding `sampleCSV` under the sample path. -/
def sampleFS : String → Option String :=
  fun q => if q = "data.csv" then some sampleCSV else none

/-- Sample CSV parser: accepts exactly `sampleCSV`, yielding the sample
table. -/
def sampleReadCSV : String → Except PdError Frame :=
  fun c => if c = sampleCSV then .ok sampleFrame else .error (.ioError "-")

/-- C5 witness: on the sample CSV bytes, reading from standard input and
reading from the sample file produce identical results. -/
theorem C5_source_channel_witness :
    runFromSource String id sampleReadCSV sampleCSV (fun _ => none)
        { sampleArgs with path := "-" } =
      runFromSource String id sampleReadCSV "unused" sampleFS sampleArgs :=
  C5_source_channel String id sampleReadCSV sampleCSV "unused" sampleFS
    (fun _ => none) sampleArgs (by decide) (by rfl)

/-- C6: the `Time` column is parsed once over the full table and once,
independently, over the Anomaly Subset (both overlays use the latter), and
for every parse function the independently parsed anomaly timestamps equal
the restriction of the full-table parsed timestamps to the rows with
`output == 1`. -/
theorem C6_time_parse (T : Type) (parse : String → T) (args : Args)
    (data : Frame) (h : hasCols data) :
    (run T parse args data).map
        (fun o => o.figure.axs.map (fun ax => ax.plots.map PlotCall.xs)) =
      .ok [[fullTimes T parse data, fullTimes T parse (anomalyPoints data)],
           [fullTimes T parse data, fullTimes T parse (anomalyPoints data)],
           [fullTimes T parse data, fullTimes T parse (anomalyPoints data)]] ∧
    fullTimes T parse (anomalyPoints data) =
      restrictToAnomalies T data (fullTimes T parse data) := by
  refine ⟨by rw [run_eq_ok T parse args data h]; rfl, ?_⟩
  unfold restrictToAnomalies fullTimes anomalyPoints
  exact (zip_map_filter_snd data.rows (fun r => parse r.time)
    (fun r => r.output == 1)).symm

/-- C6 witness: on the sample table the anomaly overlay timestamps are the
second row's timestamp in all three panels, and they coincide with the
restriction of the full-table timestamps. -/
theorem C6_time_parse_witness :
    hasCols sampleFrame ∧
    ((run String id sampleArgs sampleFrame).map
        (fun o => o.figure.axs.map (fun ax => ax.plots.map PlotCall.xs)) =
      .ok [[["2024-01-01T00:00:00", "2024-01-01T01:00:00"],
            ["2024-01-01T01:00:00"]],
           [["2024-01-01T00:00:00", "2024-01-01T01:00:00"],
            ["2024-01-01T01:00:00"]],
           [["2024-01-01T00:00:00", "2024-01-01T01:00:00"],
            ["2024-01-01T01:00:00"]]] ∧
     fullTimes String id (anomalyPoints sampleFrame) =
       restrictToAnomalies String sampleFrame
         (fullTimes String id sampleFrame)) := by
  have h := C6_time_parse String id sampleArgs sampleFrame (by decide)
  refine ⟨by decide, ?_, h.2⟩
  rw [h.1]
  simp [sampleFrame, sampleRow0, sampleRow1, anomalyPoints, fullTimes]

/-- C7: the saved figure is independent of the `show` flag — for each
configuration there is one figure such that, for either flag value, the run
saves that figure to `args.output` first, and with the flag set it only
additionally displays the already-saved figure afterwards. -/
theorem C7_save_before_show (T : Type) (parse : String → T) (args : Args)
    (data : Frame) (h : hasCols data) :
    ∃ fig : Figure T, ∀ b : Bool,
      run T parse { args with showFlag := b } data =
        .ok ⟨fig, Effect.save args.output fig ::
          (if b then [Effect.display fig] else [])⟩ := by
  obtain ⟨p, n, th, o, s⟩ := args
  refine ⟨figureSpec T parse ⟨p, n, th, o, s⟩ data, fun b => ?_⟩
  rw [run_eq_ok T parse ⟨p, n, th, o, b⟩ data h]
  rfl

/-- C7 witness: on the sample data there is one figure saved first under
both flag values, displayed afterwards exactly when the flag is set. -/
theorem C7_save_before_show_witness :
    hasCols sampleFrame ∧
    ∃ fig : Figure String, ∀ b : Bool,
      run String id { sampleArgs with showFlag := b } sampleFrame =
        .ok ⟨fig, Effect.save sampleArgs.output fig ::
          (if b then [Effect.display fig] else [])⟩ :=
  ⟨by decide, C7_save_before_show String id sampleArgs sampleFrame (by decide)⟩

/-- C8: every successful run builds a figure of size 12.8 × 9.6 with
exactly three vertically stacked subplots (grid 3 × 1, indices 1, 2, 3)
titled, top to bottom, `args.name`, "Saliency Map", "Score"; the `name`
option defaults to "value". -/
theorem C8_layout (T : Type) (parse : String → T) (args : Args)
    (data : Frame) (h : hasCols data) :
    ((run T parse args data).map
        (fun o => (o.figure.figsize,
          o.figure.axs.map (fun ax => (ax.pos, ax.title)))) =
      .ok ([128 / 10, 96 / 10],
        [((3, 1, 1), args.name), ((3, 1, 2), "Saliency Map"),
         ((3, 1, 3), "Score")])) ∧
    (∀ p : String, ({ path := p } : Args).name = "value") := by
  exact ⟨by rw [run_eq_ok T parse args data h]; rfl, fun p => rfl⟩

/-- C8 witness: on the sample data the figure is 12.8 × 9.6 with the three
stacked panels titled "value", "Saliency Map", "Score". -/
theorem C8_layout_witness :
    hasCols sampleFrame ∧
    ((run String id sampleArgs sampleFrame).map
        (fun o => (o.figure.figsize,
          o.figure.axs.map (fun ax => (ax.pos, ax.title)))) =
      .ok ([128 / 10, 96 / 10],
        [((3, 1, 1), "value"), ((3, 1, 2), "Saliency Map"),
         ((3, 1, 3), "Score")])) ∧
    ({ path := "x" } : Args).name = "value" := by
  have h := C8_layout String id sampleArgs sampleFrame (by decide)
  exact ⟨by decide, h.1, h.2 "x"⟩

/-- C9: all three panels receive identical x-axis date formatting — major
ticks at hours 0, 6, 12, 18, minor ticks every hour, major labels formatted
`"%Y-%m-%d %H:%M"` — and automatic date-label rotation is applied to the
figure. -/
theorem C9_date_format (T : Type) (parse : String → T) (args : Args)
    (data : Frame) (h : hasCols data) :
    (run T parse args data).map
        (fun o => (o.figure.autofmtXdate,
          o.figure.axs.map (fun ax =>
            (ax.majorLocatorByHour, ax.minorLocatorInterval,
              ax.majorFormatter)))) =
      .ok (true, List.replicate 3
        (some [0, 6, 12, 18], some 1, some "%Y-%m-%d %H:%M")) := by
  rw [run_eq_ok T parse args data h]; rfl

/-- C9 witness: the sample run applies the identical date formatting to
its three panels and rotates the date labels. -/
theorem C9_date_format_witness :
    hasCols sampleFrame ∧
    (run String id sampleArgs sampleFrame).map
        (fun o => (o.figure.autofmtXdate,
          o.figure.axs.map (fun ax =>
            (ax.majorLocatorByHour, ax.minorLocatorInterval,
              ax.majorFormatter)))) =
      .ok (true, List.replicate 3
        (some [0, 6, 12, 18], some 1, some "%Y-%m-%d %H:%M")) :=
  ⟨by decide, C9_date_format String id sampleArgs sampleFrame (by decide)⟩

/-- C10: on a valid CSV without any `output == 1` row the run still
succeeds: the Anomaly Subset is empty, every panel's anomaly overlay is an
empty point set (line plots intact), and the image is written to
`args.output`. -/
theorem C10_empty_anomalies (T : Type) (parse : String → T) (args : Args)
    (data : Frame) (h : hasCols data) (hno : ∀ r ∈ data.rows, r.output ≠ 1) :
    (anomalyPoints data).rows = [] ∧
    (run T parse args data).map
        (fun o => o.figure.axs.map (fun ax =>
          ax.plots.map (fun pc => (pc.xs, pc.ys)))) =
      .ok [[(fullTimes T parse data,
             data.rows.map (fun r => r.value / 1000)), ([], [])],
           [(fullTimes T parse data, data.rows.map Row.saliency), ([], [])],
           [(fullTimes T parse data, data.rows.map Row.score), ([], [])]] ∧
    writtenImages (run T parse args data) =
      [(args.output, figureSpec T parse args data)] := by
  have hA : (anomalyPoints data).rows = [] := by
    rw [anomalyPoints]
    rw [List.filter_eq_nil_iff]
    intro r hr
    simpa using hno r hr
  refine ⟨hA, ?_, ?_⟩
  · rw [run_eq_ok T parse args data h]
    simp only [exMap_ok, runSpec, figureSpec, fullTimes, hA, List.map_nil,
      List.map_cons]
  · rw [run_eq_ok T parse args data h]
    cases hb : args.showFlag <;>
      simp [writtenImages, runSpec, hb, List.filterMap]

/-- C10 witness: on the anomaly-free sample table the subset is empty and
an image is still written to the default output path. -/
theorem C10_empty_anomalies_witness :
    hasCols calmFrame ∧ (∀ r ∈ calmFrame.rows, r.output ≠ 1) ∧
    (anomalyPoints calmFrame).rows = [] ∧
    writtenImages (run String id sampleArgs calmFrame) =
      [("output.png", figureSpec String id sampleArgs calmFrame)] := by
  have h := C10_empty_anomalies String id sampleArgs calmFrame (by decide)
    (fun r hr => by
      simp [calmFrame, sampleRow0] at hr
      simp [hr, sampleRow0])
  refine ⟨by decide, ?_, h.1, h.2.2⟩
  intro r hr
  simp [calmFrame, sampleRow0] at hr
  simp [hr, sampleRow0]

end Drawer
